import Mathlib

/-
Shallow embedding of the PSDownsampler component of FidelityFX-SPD
(src/sample/src/DX12/PSDownsampler.h).  The header declares the public
interface and the data members; the method bodies live in PSDownsampler.cpp,
which is not part of the surveyed sources, so those bodies are modelled from
the specification (each such definition's doc comment says so).  The two
inline bodies present in the header (GetTexture, GetTextureView) are
embedded directly from it.
-/

set_option maxHeartbeats 1000000

/-- Compile-time mip-level bound, from PSDownsampler.h line 27:
`#define PS_MAX_MIP_LEVELS 12`. -/
def PS_MAX_MIP_LEVELS : Nat := 12

/-- Identity of what a GPU descriptor (view) targets: nothing yet (a slot of
the fixed `m_mip` array that no create call has written), the external source
image (identified by a numeric handle), or a mip level of the component's own
chain image `m_result`. -/
inductive ViewTarget where
  | uninit : ViewTarget
  | sourceView : Nat → ViewTarget
  | chainLevel : Nat → ViewTarget
deriving DecidableEq

/-- Per-level pass binding, PSDownsampler.h lines 56-60:
`RTV m_RTV; //dest` and `CBV_SRV_UAV m_SRV; //src`. -/
structure Pass where
  m_RTV : ViewTarget
  m_SRV : ViewTarget
deriving DecidableEq

/-- Content of an `m_mip` slot before any create call has written it. -/
def defaultPass : Pass := ⟨ViewTarget.uninit, ViewTarget.uninit⟩

/-- Error taxonomy of the specification (§7). -/
inductive Err where
  | invalidDimensions : Err
  | resourceExhausted : Err
  | preconditionViolation : Err
deriving DecidableEq

/-- Result of `GetTexture`: a C++ `Texture*`.  `addrOfResult` stands for the
address of the member `m_result` of the component instance. -/
inductive TexturePtr where
  | null : TexturePtr
  | addrOfResult : TexturePtr
deriving DecidableEq

/-- State of one `PSDownsampler` instance (PSDownsampler.h lines 29-73),
plus the remaining capacity of the injected descriptor/view allocator
(`ResourceViewHeaps`), which the spec treats as an external collaborator
whose exhaustion surfaces as `ResourceExhausted` (§4.1, §7).
`deviceReady`/`sized` record the lifecycle phase of §4.4
(`DeviceReady` / `SizedReady`); `m_mip` is the fixed array
`Pass m_mip[PS_MAX_MIP_LEVELS]` of header line 62, kept at length 12. -/
structure PSDownsampler where
  deviceReady : Bool
  sized : Bool
  m_Width : Nat
  m_Height : Nat
  m_mipCount : Int
  m_pInput : Nat
  m_mip : List Pass
  heapAvail : Nat
deriving DecidableEq

/-- Freshly constructed component next to a view allocator with `cap` free
descriptors: no device resources, no sized resources, all `m_mip` slots
unwritten. -/
def initState (cap : Nat) : PSDownsampler :=
  { deviceReady := false
    sized := false
    m_Width := 0
    m_Height := 0
    m_mipCount := 0
    m_pInput := 0
    m_mip := List.replicate PS_MAX_MIP_LEVELS defaultPass
    heapAvail := cap }

/-- Modelled from the spec: body of `PSDownsampler::OnCreate`
(PSDownsampler.cpp is not among the surveyed sources).  Device-level setup
(pipeline state, sampler) per §4.4: enters the `DeviceReady` state and
touches no size-dependent resource. -/
def OnCreate (s : PSDownsampler) : PSDownsampler :=
  { s with deviceReady := true }

/-- Modelled from the spec: body of `PSDownsampler::OnDestroy`
(PSDownsampler.cpp is not among the surveyed sources).  Releases
device-level resources per §4.4. -/
def OnDestroy (s : PSDownsampler) : PSDownsampler :=
  { s with deviceReady := false }

/-- Modelled from the spec: one halving step of the chain dimensions,
§4.3: `dims(k) = max(1, floor(dims(k-1)/2))`. -/
def nextDim (d : Nat) : Nat := max 1 (d / 2)

/-- Modelled from the spec: dimension of chain level `k` obtained by
iterated halving from the `createSized` argument (§4.3, §8; level 0 carries
the full argument size, as fixed by §8's 512×512 scenario). -/
def levelDim (d : Nat) : Nat → Nat
  | 0 => d
  | k + 1 => nextDim (levelDim d k)

/-- Modelled from the spec: the pass binding written for level `i` by the
sized-resource creation (§4.1): the write-view (`m_RTV`, "dest") targets
chain level `i`; the read-view (`m_SRV`, "src") targets the external source
image for level 0 and chain level `i-1` otherwise. -/
def mkPass (src : Nat) (i : Nat) : Pass :=
  { m_RTV := ViewTarget.chainLevel i
    m_SRV := if i = 0 then ViewTarget.sourceView src else ViewTarget.chainLevel (i - 1) }

/-- Modelled from the spec: the `m_mip` array after a successful sized
create with `mN` levels — slots `0 ≤ i < mN` are freshly written by
`mkPass`, slots `mN ≤ i < PS_MAX_MIP_LEVELS` keep their previous content
(the C++ loop only writes the first `mipCount` entries of the fixed
array). -/
def fillMip (src : Nat) (mN : Nat) (old : List Pass) : List Pass :=
  (List.range PS_MAX_MIP_LEVELS).map fun i =>
    if i < mN then mkPass src i else old.getD i defaultPass

/-- Modelled from the spec: body of
`PSDownsampler::OnCreateWindowSizeDependentResources` with its error
contract made explicit (PSDownsampler.cpp is not among the surveyed
sources).  Per §4.1/§7: rejects zero or over-limit size/level count with
`InvalidDimensions` before any allocation; creating while sized (no
implicit double-allocate, §4.1/§4.4) or before device setup is a
precondition violation; an allocator that cannot supply one SRV and one RTV
descriptor per level yields `ResourceExhausted`.  On success the chain
image and the per-level pass bindings exist and the state is `SizedReady`. -/
def createSized_spec (w h src : Nat) (m : Int) (s : PSDownsampler) :
    Except Err PSDownsampler :=
  if w = 0 ∨ h = 0 ∨ m < 1 ∨ (PS_MAX_MIP_LEVELS : Int) < m then
    Except.error Err.invalidDimensions
  else if s.deviceReady = false ∨ s.sized = true then
    Except.error Err.preconditionViolation
  else if s.heapAvail < 2 * m.toNat then
    Except.error Err.resourceExhausted
  else
    Except.ok
      { s with
        sized := true
        m_Width := w
        m_Height := h
        m_mipCount := m
        m_pInput := src
        m_mip := fillMip src m.toNat s.m_mip
        heapAvail := s.heapAvail - 2 * m.toNat }

/-- Declared `void` interface of `OnCreateWindowSizeDependentResources`
(PSDownsampler.h line 35): no error value reaches the caller; per §7 a
failed create leaves the component in its prior valid state. -/
def OnCreateWindowSizeDependentResources (w h src : Nat) (m : Int)
    (s : PSDownsampler) : PSDownsampler :=
  match createSized_spec w h src m s with
  | Except.ok s' => s'
  | Except.error _ => s

/-- Modelled from the spec: body of
`PSDownsampler::OnDestroyWindowSizeDependentResources` (PSDownsampler.cpp
is not among the surveyed sources).  Fully releases the chain image and the
per-level view-table entries (§4.1), returning the descriptors to the
allocator and re-entering `DeviceReady` (§4.4); a no-op when no sized
resources exist. -/
def OnDestroyWindowSizeDependentResources (s : PSDownsampler) : PSDownsampler :=
  if s.sized = true then
    { s with sized := false, heapAvail := s.heapAvail + 2 * s.m_mipCount.toNat }
  else s

/-- One pass as recorded on the command stream: its level index, the bound
source and destination views (read from the `m_mip` slot, as
`Draw` does with `m_mip[i].m_SRV` / `m_mip[i].m_RTV`), and the viewport /
parameter dimensions of the destination level (§4.3). -/
structure RecordedPass where
  level : Nat
  src : ViewTarget
  dst : ViewTarget
  outWidth : Nat
  outHeight : Nat
deriving DecidableEq

/-- The pass that iteration `k` of the `Draw` loop records, built from the
state's `m_mip` slot `k` and the level-`k` dimensions. -/
def passAt (s : PSDownsampler) (k : Nat) : RecordedPass :=
  { level := k
    src := (s.m_mip.getD k defaultPass).m_SRV
    dst := (s.m_mip.getD k defaultPass).m_RTV
    outWidth := levelDim s.m_Width k
    outHeight := levelDim s.m_Height k }

/-- Modelled from the spec: the `for level k = 0 .. mipCount-1` recording
loop of §4.3, unrolled to its first `n` iterations, each appending one
full-screen pass to the command stream. -/
def drawLoop (s : PSDownsampler) : Nat → List RecordedPass
  | 0 => []
  | n + 1 => drawLoop s n ++ [passAt s n]

/-- Modelled from the spec: body of `PSDownsampler::Draw` with its error
contract made explicit (PSDownsampler.cpp is not among the surveyed
sources).  Drawing before `createSized`/device setup is a
`PreconditionViolation` detected before anything is enqueued (§5, §7);
otherwise the sequencer records one pass per level, in increasing level
order, on a single command stream (§4.3). -/
def draw_spec (s : PSDownsampler) : Except Err (List RecordedPass) :=
  if s.deviceReady = true ∧ s.sized = true then
    Except.ok (drawLoop s s.m_mipCount.toNat)
  else
    Except.error Err.preconditionViolation

/-- Declared `void` interface of `Draw` (PSDownsampler.h line 38): the call
appends the recorded passes to the open command list and communicates no
error value; on failure nothing is appended. -/
def Draw (s : PSDownsampler) (cl : List RecordedPass) : List RecordedPass :=
  match draw_spec s with
  | Except.ok ps => cl ++ ps
  | Except.error _ => cl

/-- Embedded from the header (PSDownsampler.h line 39):
`Texture *GetTexture() { return &m_result; }` — the address of the data
member `m_result`, which is fixed for the lifetime of the instance and
independent of every other field of the state. -/
def GetTexture (_ : PSDownsampler) : TexturePtr := TexturePtr.addrOfResult

/-- Embedded from the header (PSDownsampler.h line 40):
`CBV_SRV_UAV GetTextureView(int i) { return m_mip[i].m_SRV; }` — an
unchecked read of the fixed array.  The model is meaningful for
`i < PS_MAX_MIP_LEVELS` (the array bound); beyond it the C++ read is
undefined behaviour and no theorem below mentions such an index. -/
def GetTextureView (s : PSDownsampler) (i : Nat) : ViewTarget :=
  (s.m_mip.getD i defaultPass).m_SRV

/-- Public operations that mutate the component, with the arguments of the
embedding (the external source image is a numeric handle). -/
inductive Op where
  | onCreate : Op
  | onDestroy : Op
  | createSized : Nat → Nat → Nat → Int → Op
  | destroySized : Op
  | draw : Op
deriving DecidableEq

/-- Effect of one public call on the member state, at the declared `void`
interface (errors are swallowed, §7's "prior valid state" rule); `Draw`
records onto the command list and leaves the members unchanged. -/
def step (op : Op) (s : PSDownsampler) : PSDownsampler :=
  match op with
  | Op.onCreate => OnCreate s
  | Op.onDestroy => OnDestroy s
  | Op.createSized w h src m => OnCreateWindowSizeDependentResources w h src m s
  | Op.destroySized => OnDestroyWindowSizeDependentResources s
  | Op.draw => s

/-- State after a sequence of public calls on a fresh component whose view
allocator starts with `cap` free descriptors. -/
def runOps (cap : Nat) (ops : List Op) : PSDownsampler :=
  ops.foldl (fun s op => step op s) (initState cap)

/-- Width of chain level `k` of the sized component. -/
def chainLevelWidth (s : PSDownsampler) (k : Nat) : Nat := levelDim s.m_Width k

/-- Height of chain level `k` of the sized component. -/
def chainLevelHeight (s : PSDownsampler) (k : Nat) : Nat := levelDim s.m_Height k

/-- Per-level (width, height) list of the chain — the observable geometry
that §8's idempotence property compares. -/
def chainGeometry (s : PSDownsampler) : List (Nat × Nat) :=
  (List.range s.m_mipCount.toNat).map fun k =>
    (chainLevelWidth s k, chainLevelHeight s k)

/-- Level-dimension formula as the spec's §3 sentence words it (ceiling
division, clamped at 1) — stated for comparison against the embedding's
floor-based `levelDim`. -/
def levelDimCeilSpec (d k : Nat) : Nat := max 1 ((d + (2 ^ k - 1)) / 2 ^ k)

/-- C++ return type of a public method, as declared in the header. -/
inductive CppReturnType where
  | void : CppReturnType
  | texturePointer : CppReturnType
  | resourceView : CppReturnType
deriving DecidableEq

/-- The public methods of `PSDownsampler` (header lines 32-41). -/
inductive PublicMethod where
  | onCreate : PublicMethod
  | onDestroy : PublicMethod
  | onCreateWindowSizeDependentResources : PublicMethod
  | onDestroyWindowSizeDependentResources : PublicMethod
  | draw : PublicMethod
  | getTexture : PublicMethod
  | getTextureView : PublicMethod
  | gui : PublicMethod
deriving DecidableEq

/-- Declared return type of each public method, transcribed from
PSDownsampler.h lines 32-41: the five lifecycle/recording methods return
`void`; `GetTexture` returns `Texture*`; `GetTextureView` returns a
`CBV_SRV_UAV` descriptor; `Gui` returns `void`. -/
def declaredReturn : PublicMethod → CppReturnType
  | PublicMethod.onCreate => CppReturnType.void
  | PublicMethod.onDestroy => CppReturnType.void
  | PublicMethod.onCreateWindowSizeDependentResources => CppReturnType.void
  | PublicMethod.onDestroyWindowSizeDependentResources => CppReturnType.void
  | PublicMethod.draw => CppReturnType.void
  | PublicMethod.getTexture => CppReturnType.texturePointer
  | PublicMethod.getTextureView => CppReturnType.resourceView
  | PublicMethod.gui => CppReturnType.void

/-- The methods that mutate the component: create, destroy, createSized,
destroySized, draw (the getters and the debug panel do not). -/
def isMutating : PublicMethod → Bool
  | PublicMethod.onCreate => true
  | PublicMethod.onDestroy => true
  | PublicMethod.onCreateWindowSizeDependentResources => true
  | PublicMethod.onDestroyWindowSizeDependentResources => true
  | PublicMethod.draw => true
  | PublicMethod.getTexture => false
  | PublicMethod.getTextureView => false
  | PublicMethod.gui => false

/-- A component in the `DeviceReady` state with 100 free descriptors, used
by the concrete instances below. -/
def demoReady : PSDownsampler := OnCreate (initState 100)

/-- Dummy pass used as the `getD` default when reading the recorded list. -/
def noPass : RecordedPass := ⟨0, ViewTarget.uninit, ViewTarget.uninit, 0, 0⟩

/-- Decidable equality of `Except` results, so that concrete runs of the
fallible operations can be checked by evaluation. -/
instance {ε α : Type} [DecidableEq ε] [DecidableEq α] : DecidableEq (Except ε α) := fun a b =>
  match a, b with
  | Except.error e, Except.error e' =>
      if he : e = e' then isTrue (by rw [he])
      else isFalse (by intro hc; injection hc; contradiction)
  | Except.error _, Except.ok _ => isFalse (by intro hc; cases hc)
  | Except.ok _, Except.error _ => isFalse (by intro hc; cases hc)
  | Except.ok x, Except.ok y =>
      if hx : x = y then isTrue (by rw [hx])
      else isFalse (by intro hc; injection hc; contradiction)

theorem levelDim_closed (d : Nat) (hd : 1 ≤ d) (k : Nat) :
    levelDim d k = max 1 (d / 2 ^ k) := by
  induction k with
  | zero => simp [levelDim]; omega
  | succ k ih =>
      rw [levelDim, ih, nextDim]
      have h2 : d / 2 ^ (k + 1) = d / 2 ^ k / 2 := by
        rw [Nat.pow_succ, Nat.div_div_eq_div_mul]
      rcases Nat.eq_zero_or_pos (d / 2 ^ k) with h | h
      · rw [h, h2, h]; simp
      · rw [Nat.max_eq_right h, h2]

theorem levelDim_pos (d : Nat) (hd : 1 ≤ d) (k : Nat) : 1 ≤ levelDim d k := by
  induction k with
  | zero => exact hd
  | succ k ih => exact le_max_left 1 _

theorem levelDim_sticky (d : Nat) (hd : 1 ≤ d) (j k : Nat) (hjk : j ≤ k)
    (h1 : levelDim d j = 1) : levelDim d k = 1 := by
  rw [levelDim_closed d hd] at h1 ⊢
  have hq : d / 2 ^ j ≤ 1 := le_of_le_of_eq (le_max_right 1 _) h1
  have hle : d / 2 ^ k ≤ d / 2 ^ j :=
    Nat.div_le_div_left (Nat.pow_le_pow_right (by norm_num) hjk)
      (Nat.pos_pow_of_pos j (by norm_num))
  omega

theorem fillMip_length (src mN : Nat) (old : List Pass) :
    (fillMip src mN old).length = PS_MAX_MIP_LEVELS := by
  rw [fillMip]; simp

theorem fillMip_getD (src mN : Nat) (old : List Pass) (i : Nat)
    (h12 : i < PS_MAX_MIP_LEVELS) :
    (fillMip src mN old).getD i defaultPass =
      if i < mN then mkPass src i else old.getD i defaultPass := by
  rw [fillMip, List.getD_eq_getElem?_getD]
  rw [List.getElem?_eq_getElem (by simpa using h12)]
  simp

theorem createSized_ok_inv {w h src : Nat} {m : Int} {s s' : PSDownsampler}
    (hok : createSized_spec w h src m s = Except.ok s') :
    1 ≤ w ∧ 1 ≤ h ∧ 1 ≤ m ∧ m ≤ (PS_MAX_MIP_LEVELS : Int) ∧
    s.deviceReady = true ∧ s.sized = false ∧ 2 * m.toNat ≤ s.heapAvail ∧
    s' = { s with sized := true, m_Width := w, m_Height := h, m_mipCount := m,
                  m_pInput := src, m_mip := fillMip src m.toNat s.m_mip,
                  heapAvail := s.heapAvail - 2 * m.toNat } := by
  rw [createSized_spec] at hok
  split at hok
  · cases hok
  · split at hok
    · cases hok
    · split at hok
      · cases hok
      · rename_i h1 h2 h3
        push_neg at h1 h2
        injection hok with hs
        exact ⟨by omega, by omega, by omega, h1.2.2.2,
          by simpa using h2.1, by simpa using h2.2, by omega, hs.symm⟩

theorem drawLoop_eq_map (s : PSDownsampler) (n : Nat) :
    drawLoop s n = (List.range n).map (passAt s) := by
  induction n with
  | zero => rfl
  | succ n ih => rw [drawLoop, ih, List.range_succ, List.map_append]; rfl

theorem drawLoop_length (s : PSDownsampler) (n : Nat) :
    (drawLoop s n).length = n := by
  rw [drawLoop_eq_map]; simp

theorem drawLoop_getD (s : PSDownsampler) (n i : Nat) (hi : i < n) :
    (drawLoop s n).getD i noPass = passAt s i := by
  rw [drawLoop_eq_map, List.getD_eq_getElem?_getD]
  rw [List.getElem?_eq_getElem (by simpa using hi)]
  simp

/-- C1: for every (width, height, mipCount) accepted by the sized create
(width ≥ 1, height ≥ 1, mipCount ≤ PS_MAX_MIP_LEVELS), chain level `k`
(`0 ≤ k < mipCount`) measures `max 1 (width / 2^k)` by
`max 1 (height / 2^k)` (floor division); every level dimension is at least
1 (never 0), and a dimension that has reached 1 at some level stays
clamped at 1 at every deeper level. -/
theorem C1_level_dimensions {w hgt src : Nat} {m : Int} {s s' : PSDownsampler}
    (hok : createSized_spec w hgt src m s = Except.ok s') :
    ∀ k, k < m.toNat →
      (chainLevelWidth s' k = max 1 (w / 2 ^ k) ∧
        chainLevelHeight s' k = max 1 (hgt / 2 ^ k)) ∧
      (1 ≤ chainLevelWidth s' k ∧ 1 ≤ chainLevelHeight s' k) ∧
      (∀ j, j ≤ k → chainLevelWidth s' j = 1 → chainLevelWidth s' k = 1) ∧
      (∀ j, j ≤ k → chainLevelHeight s' j = 1 → chainLevelHeight s' k = 1) := by
  obtain ⟨hw, hh, _, _, _, _, _, hs⟩ := createSized_ok_inv hok
  subst hs
  intro k _
  simp only [chainLevelWidth, chainLevelHeight]
  exact ⟨⟨levelDim_closed w hw k, levelDim_closed hgt hh k⟩,
    ⟨levelDim_pos w hw k, levelDim_pos hgt hh k⟩,
    fun j hjk h1 => levelDim_sticky w hw j k hjk h1,
    fun j hjk h1 => levelDim_sticky hgt hh j k hjk h1⟩

/-- Witness for C1: width 1025, height 1, mipCount 4 — at level 3 the
width is max 1 (1025/8) = 128 and the height stays clamped at 1. -/
theorem C1_level_dimensions_witness :
    chainLevelWidth (OnCreateWindowSizeDependentResources 1025 1 7 4 demoReady) 3
      = max 1 (1025 / 2 ^ 3) ∧
    1 ≤ chainLevelHeight (OnCreateWindowSizeDependentResources 1025 1 7 4 demoReady) 3 :=
  have hok : createSized_spec 1025 1 7 4 demoReady
      = Except.ok (OnCreateWindowSizeDependentResources 1025 1 7 4 demoReady) := by decide
  ⟨(C1_level_dimensions hok 3 (by decide)).1.1,
    (C1_level_dimensions hok 3 (by decide)).2.1.2⟩

/-- C3 counterexample: the sized create succeeds at width 5, height 5,
mipCount 2, yet level 1's width is 2 = max 1 ⌊5/2⌋, while the claimed
ceiling formula gives max 1 ⌈5/2⌉ = 3. -/
theorem C3_ceiling_counterexample :
    (createSized_spec 5 5 7 2 demoReady).isOk = true ∧
    chainLevelWidth (OnCreateWindowSizeDependentResources 5 5 7 2 demoReady) 1 = 2 ∧
    levelDimCeilSpec 5 1 = 3 := by decide

/-- C3 as amended: for every source accepted by the sized create, chain
level `k` measures `max 1 (w / 2^k)` by `max 1 (h / 2^k)` — floor
division clamped below at 1, not ceiling division. -/
theorem C3_level_dimensions_floor {w hgt src : Nat} {m : Int} {s s' : PSDownsampler}
    (hok : createSized_spec w hgt src m s = Except.ok s') :
    ∀ k, k < m.toNat →
      chainLevelWidth s' k = max 1 (w / 2 ^ k) ∧
      chainLevelHeight s' k = max 1 (hgt / 2 ^ k) := by
  obtain ⟨hw, hh, _, _, _, _, _, hs⟩ := createSized_ok_inv hok
  subst hs
  intro k _
  simp only [chainLevelWidth, chainLevelHeight]
  exact ⟨levelDim_closed w hw k, levelDim_closed hgt hh k⟩

/-- Witness for the amended C3: width 5, height 3, mipCount 2, level 1:
dimensions 2 × 1. -/
theorem C3_level_dimensions_floor_witness :
    chainLevelWidth (OnCreateWindowSizeDependentResources 5 3 7 2 demoReady) 1
      = max 1 (5 / 2 ^ 1) ∧
    chainLevelHeight (OnCreateWindowSizeDependentResources 5 3 7 2 demoReady) 1
      = max 1 (3 / 2 ^ 1) :=
  have hok : createSized_spec 5 3 7 2 demoReady
      = Except.ok (OnCreateWindowSizeDependentResources 5 3 7 2 demoReady) := by decide
  C3_level_dimensions_floor hok 1 (by decide)

/-- C2: after a successful sized create with `mipCount` levels, one `Draw`
records exactly `mipCount` passes whose level indices are `0, 1, …,
mipCount-1` in order; for `k > 0` pass `k`'s source view targets the same
image memory as pass `k-1`'s destination view, and pass 0's source is the
external source image's view, never a view of the chain itself. -/
theorem C2_draw_pass_chain {w hgt src : Nat} {m : Int} {s s' : PSDownsampler}
    (hok : createSized_spec w hgt src m s = Except.ok s') :
    ∃ ps, draw_spec s' = Except.ok ps ∧
      ps.length = m.toNat ∧
      (∀ i, i < m.toNat → (ps.getD i noPass).level = i) ∧
      (∀ i, 0 < i → i < m.toNat →
        (ps.getD i noPass).src = (ps.getD (i - 1) noPass).dst) ∧
      (ps.getD 0 noPass).src = ViewTarget.sourceView src ∧
      (∀ j, (ps.getD 0 noPass).src ≠ ViewTarget.chainLevel j) := by
  obtain ⟨hw, hh, hm1, hm2, hdev, hsz, hheap, hs⟩ := createSized_ok_inv hok
  have hPS : PS_MAX_MIP_LEVELS = 12 := rfl
  have hdev' : s'.deviceReady = true := by rw [hs]; exact hdev
  have hsz' : s'.sized = true := by rw [hs]
  have hmc : s'.m_mipCount = m := by rw [hs]
  have hmip : s'.m_mip = fillMip src m.toNat s.m_mip := by rw [hs]
  have hm12 : m.toNat ≤ PS_MAX_MIP_LEVELS := by rw [hPS]; rw [hPS] at hm2; omega
  have hslot : ∀ i, i < m.toNat → s'.m_mip.getD i defaultPass = mkPass src i := by
    intro i hi
    rw [hmip, fillMip_getD src m.toNat s.m_mip i (by omega), if_pos hi]
  have hm0 : 0 < m.toNat := by omega
  refine ⟨drawLoop s' s'.m_mipCount.toNat, ?_, ?_, ?_, ?_, ?_, ?_⟩
  · rw [draw_spec, if_pos ⟨hdev', hsz'⟩]
  · rw [drawLoop_length, hmc]
  · intro i hi
    rw [hmc, drawLoop_getD s' m.toNat i hi]
    rfl
  · intro i hi0 hi
    rw [hmc, drawLoop_getD s' m.toNat i hi, drawLoop_getD s' m.toNat (i - 1) (by omega)]
    show (s'.m_mip.getD i defaultPass).m_SRV = (s'.m_mip.getD (i - 1) defaultPass).m_RTV
    rw [hslot i hi, hslot (i - 1) (by omega)]
    simp only [mkPass, if_neg (by omega : ¬i = 0)]
  · rw [hmc, drawLoop_getD s' m.toNat 0 hm0]
    show (s'.m_mip.getD 0 defaultPass).m_SRV = ViewTarget.sourceView src
    rw [hslot 0 hm0]
    rfl
  · intro j
    rw [hmc, drawLoop_getD s' m.toNat 0 hm0]
    show (s'.m_mip.getD 0 defaultPass).m_SRV ≠ ViewTarget.chainLevel j
    rw [hslot 0 hm0]
    simp [mkPass]

/-- Witness for C2: after a sized create with 3 levels on a 64×64 source,
`draw_spec` succeeds and records 3 passes, pass 1 reading what pass 0
wrote. -/
theorem C2_draw_pass_chain_witness :
    ∃ ps, draw_spec (OnCreateWindowSizeDependentResources 64 64 7 3 demoReady)
        = Except.ok ps ∧
      ps.length = (3 : Int).toNat ∧
      (∀ i, i < (3 : Int).toNat → (ps.getD i noPass).level = i) ∧
      (∀ i, 0 < i → i < (3 : Int).toNat →
        (ps.getD i noPass).src = (ps.getD (i - 1) noPass).dst) ∧
      (ps.getD 0 noPass).src = ViewTarget.sourceView 7 ∧
      (∀ j, (ps.getD 0 noPass).src ≠ ViewTarget.chainLevel j) :=
  have hok : createSized_spec 64 64 7 3 demoReady
      = Except.ok (OnCreateWindowSizeDependentResources 64 64 7 3 demoReady) := by decide
  C2_draw_pass_chain hok

/-- The sized-state invariant of §3: while sized resources exist, the
stored mip count lies between 1 and the compile-time bound; the fixed
pass-binding array always has exactly `PS_MAX_MIP_LEVELS` slots. -/
def ComponentInv (s : PSDownsampler) : Prop :=
  (s.sized = true →
    1 ≤ s.m_mipCount ∧ s.m_mipCount ≤ (PS_MAX_MIP_LEVELS : Int)) ∧
  s.m_mip.length = PS_MAX_MIP_LEVELS

theorem step_preserves_inv (op : Op) (s : PSDownsampler)
    (hinv : ComponentInv s) : ComponentInv (step op s) := by
  obtain ⟨hsi, hlen⟩ := hinv
  cases op with
  | onCreate => exact ⟨hsi, hlen⟩
  | onDestroy => exact ⟨hsi, hlen⟩
  | createSized w hgt src m =>
      show ComponentInv (OnCreateWindowSizeDependentResources w hgt src m s)
      rw [OnCreateWindowSizeDependentResources]
      rcases hcs : createSized_spec w hgt src m s with e | s'
      · exact ⟨hsi, hlen⟩
      · obtain ⟨_, _, hm1, hm2, _, _, _, hs⟩ := createSized_ok_inv hcs
        subst hs
        exact ⟨fun _ => ⟨hm1, hm2⟩, fillMip_length src m.toNat s.m_mip⟩
  | destroySized =>
      show ComponentInv (OnDestroyWindowSizeDependentResources s)
      rw [OnDestroyWindowSizeDependentResources]
      split
      · exact ⟨(fun hc => nomatch hc), hlen⟩
      · exact ⟨hsi, hlen⟩
  | draw => exact ⟨hsi, hlen⟩

theorem foldl_preserves_inv (ops : List Op) (s : PSDownsampler)
    (hinv : ComponentInv s) :
    ComponentInv (ops.foldl (fun s op => step op s) s) := by
  induction ops generalizing s with
  | nil => exact hinv
  | cons op rest ih => exact ih (step op s) (step_preserves_inv op s hinv)

theorem initState_inv (cap : Nat) : ComponentInv (initState cap) := by
  refine ⟨fun hc => ?_, ?_⟩
  · simp [initState] at hc
  · simp [initState]

/-- C4: in every state reachable by public calls on a fresh component, if
sized resources exist then `1 ≤ m_mipCount ≤ PS_MAX_MIP_LEVELS`;
`PS_MAX_MIP_LEVELS` is the compile-time constant 12 and is the capacity of
the fixed per-level pass-binding array `m_mip` in every reachable state. -/
theorem C4_mipcount_invariant :
    ∀ cap : Nat, ∀ ops : List Op,
      PS_MAX_MIP_LEVELS = 12 ∧
      (runOps cap ops).m_mip.length = PS_MAX_MIP_LEVELS ∧
      ((runOps cap ops).sized = true →
        1 ≤ (runOps cap ops).m_mipCount ∧
        (runOps cap ops).m_mipCount ≤ (PS_MAX_MIP_LEVELS : Int)) := by
  intro cap ops
  have hinv := foldl_preserves_inv ops (initState cap) (initState_inv cap)
  exact ⟨rfl, hinv.2, hinv.1⟩

/-- Witness for C4: after device setup and a 3-level sized create, the
stored mip count is between 1 and 12. -/
theorem C4_mipcount_invariant_witness :
    1 ≤ (runOps 100 [Op.onCreate, Op.createSized 64 64 7 3]).m_mipCount ∧
    (runOps 100 [Op.onCreate, Op.createSized 64 64 7 3]).m_mipCount
      ≤ (PS_MAX_MIP_LEVELS : Int) :=
  (C4_mipcount_invariant 100 [Op.onCreate, Op.createSized 64 64 7 3]).2.2 (by decide)

/-- C5: the sized create fails with `InvalidDimensions` whenever the width
or height is zero or the level count exceeds `PS_MAX_MIP_LEVELS`, leaving
the component (its allocator capacity included) untouched — the rejection
precedes any allocation; and on every failure, `ResourceExhausted`
included, the `void` interface call leaves the component exactly in its
prior state. -/
theorem C5_create_failure_safety :
    ∀ w hgt src : Nat, ∀ m : Int, ∀ s : PSDownsampler,
      ((w = 0 ∨ hgt = 0 ∨ (PS_MAX_MIP_LEVELS : Int) < m) →
        createSized_spec w hgt src m s = Except.error Err.invalidDimensions) ∧
      (∀ e : Err, createSized_spec w hgt src m s = Except.error e →
        OnCreateWindowSizeDependentResources w hgt src m s = s) := by
  intro w hgt src m s
  constructor
  · intro hbad
    rw [createSized_spec, if_pos (by tauto)]
  · intro e he
    rw [OnCreateWindowSizeDependentResources, he]

/-- Witness for C5: zero width is rejected with `InvalidDimensions` and the
ready state is returned unchanged. -/
theorem C5_create_failure_safety_witness :
    createSized_spec 0 64 7 3 demoReady = Except.error Err.invalidDimensions ∧
    OnCreateWindowSizeDependentResources 0 64 7 3 demoReady = demoReady :=
  have h1 := (C5_create_failure_safety 0 64 7 3 demoReady).1 (Or.inl rfl)
  ⟨h1, (C5_create_failure_safety 0 64 7 3 demoReady).2 Err.invalidDimensions h1⟩

/-- C6: `Draw` is atomic at the recording boundary — on any state and any
open command list, either it detects a precondition violation and appends
nothing, or it appends all `m_mipCount` recorded passes; no partial chain
is ever left on the command list. -/
theorem C6_draw_atomic :
    ∀ s : PSDownsampler, ∀ cl : List RecordedPass,
      (draw_spec s = Except.error Err.preconditionViolation ∧ Draw s cl = cl) ∨
      (∃ ps, draw_spec s = Except.ok ps ∧ Draw s cl = cl ++ ps ∧
        ps.length = s.m_mipCount.toNat) := by
  intro s cl
  rw [draw_spec, Draw, draw_spec]
  split
  · right
    exact ⟨drawLoop s s.m_mipCount.toNat, rfl, rfl, drawLoop_length s s.m_mipCount.toNat⟩
  · left
    exact ⟨rfl, rfl⟩

/-- C7 counterexample: on a chain created with 2 levels over source image
7, `GetTextureView 1` returns the view targeting chain level 0 — not a
view of level 1 as the claim states — and the call is an unchecked array
read, not a detected error: with the same 2-level chain, the out-of-range
index 2 simply yields the stale (uninitialized) slot content instead of
any error. -/
theorem C7_level_view_counterexample :
    (createSized_spec 8 8 7 2 demoReady).isOk = true ∧
    GetTextureView (OnCreateWindowSizeDependentResources 8 8 7 2 demoReady) 1
      = ViewTarget.chainLevel 0 ∧
    GetTextureView (OnCreateWindowSizeDependentResources 8 8 7 2 demoReady) 1
      ≠ ViewTarget.chainLevel 1 ∧
    GetTextureView (OnCreateWindowSizeDependentResources 8 8 7 2 demoReady) 2
      = ViewTarget.uninit := by decide

/-- C7 as amended: after a successful sized create, `GetTextureView 0`
returns the external source image's view, `GetTextureView i` for
`1 ≤ i < mipCount` returns the sampleable view of chain level `i-1`, and
an out-of-range index below the array bound is not detected as an error —
the unchecked read returns whatever the slot held before the create. -/
theorem C7_level_view_amended {w hgt src : Nat} {m : Int} {s s' : PSDownsampler}
    (hok : createSized_spec w hgt src m s = Except.ok s') :
    GetTextureView s' 0 = ViewTarget.sourceView src ∧
    (∀ i, 0 < i → i < m.toNat →
      GetTextureView s' i = ViewTarget.chainLevel (i - 1)) ∧
    (∀ i, m.toNat ≤ i → i < PS_MAX_MIP_LEVELS →
      GetTextureView s' i = GetTextureView s i) := by
  obtain ⟨hw, hh, hm1, hm2, _, _, _, hs⟩ := createSized_ok_inv hok
  have hPS : PS_MAX_MIP_LEVELS = 12 := rfl
  have hmip : s'.m_mip = fillMip src m.toNat s.m_mip := by rw [hs]
  have hm12 : m.toNat ≤ PS_MAX_MIP_LEVELS := by rw [hPS]; rw [hPS] at hm2; omega
  have hm0 : 0 < m.toNat := by omega
  refine ⟨?_, ?_, ?_⟩
  · show (s'.m_mip.getD 0 defaultPass).m_SRV = ViewTarget.sourceView src
    rw [hmip, fillMip_getD src m.toNat s.m_mip 0 (by omega), if_pos hm0]
    rfl
  · intro i hi0 hi
    show (s'.m_mip.getD i defaultPass).m_SRV = ViewTarget.chainLevel (i - 1)
    rw [hmip, fillMip_getD src m.toNat s.m_mip i (by omega), if_pos hi]
    simp only [mkPass, if_neg (by omega : ¬i = 0)]
  · intro i hi hi12
    show (s'.m_mip.getD i defaultPass).m_SRV = GetTextureView s i
    rw [hmip, fillMip_getD src m.toNat s.m_mip i hi12, if_neg (by omega)]
    rfl

/-- Witness for the amended C7: on a 3-level chain over source image 7,
`GetTextureView 0` is the source's view, `GetTextureView 2` is chain
level 1's view, and the out-of-range index 3 returns the untouched
(uninitialized) slot of the prior state. -/
theorem C7_level_view_amended_witness :
    GetTextureView (OnCreateWindowSizeDependentResources 64 64 7 3 demoReady) 0
      = ViewTarget.sourceView 7 ∧
    GetTextureView (OnCreateWindowSizeDependentResources 64 64 7 3 demoReady) 2
      = ViewTarget.chainLevel 1 ∧
    GetTextureView (OnCreateWindowSizeDependentResources 64 64 7 3 demoReady) 3
      = GetTextureView demoReady 3 :=
  have hok : createSized_spec 64 64 7 3 demoReady
      = Except.ok (OnCreateWindowSizeDependentResources 64 64 7 3 demoReady) := by decide
  ⟨(C7_level_view_amended hok).1,
    (C7_level_view_amended hok).2.1 2 (by decide) (by decide),
    (C7_level_view_amended hok).2.2 3 (by decide) (by decide)⟩

/-- C8: round-trip idempotence of sizing — after a successful sized
create, destroying the sized resources and creating again with identical
arguments succeeds and yields exactly the per-level geometry of the first
chain. -/
theorem C8_geometry_roundtrip {w hgt src : Nat} {m : Int} {s s1 : PSDownsampler}
    (hok : createSized_spec w hgt src m s = Except.ok s1) :
    ∃ s3, createSized_spec w hgt src m (OnDestroyWindowSizeDependentResources s1)
        = Except.ok s3 ∧
      chainGeometry s3 = chainGeometry s1 := by
  obtain ⟨hw, hh, hm1, hm2, hdev, hsz, hheap, hs⟩ := createSized_ok_inv hok
  have hPS : PS_MAX_MIP_LEVELS = 12 := rfl
  subst hs
  rw [OnDestroyWindowSizeDependentResources]
  rw [if_pos rfl]
  rw [createSized_spec]
  rw [if_neg (by rw [hPS] at hm2 ⊢; push_neg; exact ⟨by omega, by omega, by omega, by omega⟩)]
  rw [if_neg (by simp [hdev])]
  rw [if_neg (show ¬(s.heapAvail - 2 * m.toNat + 2 * m.toNat < 2 * m.toNat) by omega)]
  exact ⟨_, rfl, rfl⟩

/-- Witness for C8: create 64×64 with 3 levels, destroy, create again —
the second chain's geometry list equals the first's. -/
theorem C8_geometry_roundtrip_witness :
    ∃ s3, createSized_spec 64 64 7 3
        (OnDestroyWindowSizeDependentResources
          (OnCreateWindowSizeDependentResources 64 64 7 3 demoReady))
      = Except.ok s3 ∧
      chainGeometry s3
        = chainGeometry (OnCreateWindowSizeDependentResources 64 64 7 3 demoReady) :=
  have hok : createSized_spec 64 64 7 3 demoReady
      = Except.ok (OnCreateWindowSizeDependentResources 64 64 7 3 demoReady) := by decide
  C8_geometry_roundtrip hok

/-- C9: `GetTexture` returns the address of the member `m_result` in every
state — a fixed, non-null handle — and every public operation preserves
it. -/
theorem C9_result_handle_constant :
    (∀ s : PSDownsampler, GetTexture s = TexturePtr.addrOfResult) ∧
    (∀ op : Op, ∀ s : PSDownsampler, GetTexture (step op s) = GetTexture s) :=
  ⟨fun _ => rfl, fun _ _ => rfl⟩

/-- C10: every mutating public method of the class — OnCreate, OnDestroy,
OnCreateWindowSizeDependentResources, OnDestroyWindowSizeDependentResources
and Draw — is declared `void` in the header, so no failure of these
operations reaches the caller through a return value. -/
theorem C10_mutators_return_void :
    ∀ meth : PublicMethod, isMutating meth = true →
      declaredReturn meth = CppReturnType.void := by
  intro meth hm
  cases meth <;> first | rfl | exact absurd hm (by decide)

/-- Witness for C10: `Draw` is declared `void`. -/
theorem C10_mutators_return_void_witness :
    declaredReturn PublicMethod.draw = CppReturnType.void :=
  C10_mutators_return_void PublicMethod.draw (by decide)
